import Mathlib

/-!
Shallow embedding of the particle-ensemble core of the Arix Signature tree
(src/arix-xmas-tree/src/App.tsx): the layout generator `generateData` and the
per-frame transform animator (the `useFrame` callback of `SignatureTree`).

Conventions of the embedding:
* JavaScript numbers are modelled as real numbers (`ℝ`).
* Each call of `Math.random()` in `generateData` is replaced by an injected
  deterministic value: a `Rand` record supplies, per particle index, the six
  uniform draws the body loop consumes (radius, theta, phi, color-set pick,
  color pick, scale) and the two draws the star branch consumes.
* `THREE.MathUtils.lerp(x, y, t) = (1 - t) * x + t * y` (no clamping).
* `Math.cbrt`, `Math.acos`, `Math.sin`, `Math.cos` become `cbrt` (real rpow by
  1/3, which agrees with the real cube root on the `[0,1)` inputs fed to it),
  `Real.arccos`, `Real.sin`, `Real.cos`.
* The per-instance matrix written by `dummy.updateMatrix()` is determined by
  the (position, rotation, scale) triple set on `dummy`; the animator is
  modelled as producing that triple (a `Transform`) per particle.
-/

namespace Arix

noncomputable section

/-- Display mode of the ensemble: the two-state toggle of the app. -/
inductive Mode
  | SCATTERED
  | TREE_SHAPE
  deriving DecidableEq

/-- The static configuration record of App.tsx (`CONFIG`). -/
structure Config where
  count : ℕ
  colors : List ℕ
  scatterRadius : ℝ
  treeHeight : ℝ
  treeRadius : ℝ
  animSpeed : ℝ

/-- The literal `CONFIG` value of App.tsx; palette entries are the hex codes. -/
def CONFIG : Config :=
  { count := 1200
    colors := [0x003311, 0x005522, 0xFFD700, 0xE6C200]
    scatterRadius := 20
    treeHeight := 9
    treeRadius := 4
    animSpeed := 2.0 }

/-- A position / rotation triple. -/
abbrev Vec3 : Type := ℝ × ℝ × ℝ

/-- `THREE.MathUtils.lerp`: linear interpolation, not clamped. -/
def lerp (x y t : ℝ) : ℝ := (1 - t) * x + t * y

/-- `Math.cbrt` on the `[0,1)` arguments the generator feeds it. -/
noncomputable def cbrt (u : ℝ) : ℝ := u ^ ((1 : ℝ) / 3)

/-- Injected deterministic values standing in for the `Math.random()` calls of
`generateData`: per body-particle index the six draws of the loop body, plus
the two draws of the star branch. -/
structure Rand where
  uR : ℕ → ℝ
  uTheta : ℕ → ℝ
  uPhi : ℕ → ℝ
  uColorSet : ℕ → ℝ
  uColorPick : ℕ → ℝ
  uScale : ℕ → ℝ
  starX : ℝ
  starZ : ℝ

/-- The all-zero injected randomness (every draw is 0). -/
def zeroRand : Rand :=
  { uR := fun _ => 0
    uTheta := fun _ => 0
    uPhi := fun _ => 0
    uColorSet := fun _ => 0
    uColorPick := fun _ => 0
    uScale := fun _ => 0
    starX := 0
    starZ := 0 }

/-- Spherical-to-Cartesian conversion as the generator writes it:
`(r sin φ cos θ, r sin φ sin θ, r cos φ)`. -/
noncomputable def sphericalToCartesian (r theta phi : ℝ) : Vec3 :=
  (r * Real.sin phi * Real.cos theta,
   r * Real.sin phi * Real.sin theta,
   r * Real.cos phi)

/-- Scatter position of body particle `i` (App.tsx lines 34-39):
radius `scatterRadius * cbrt u`, `theta = u * 2π`, `phi = acos (2u - 1)`,
converted to Cartesian, with `treeHeight / 2` added to the y component. -/
noncomputable def scatterPosition (cfg : Config) (rand : Rand) (i : ℕ) : Vec3 :=
  let r := cfg.scatterRadius * cbrt (rand.uR i)
  let theta := rand.uTheta i * 2 * Real.pi
  let phi := Real.arccos (2 * rand.uPhi i - 1)
  (r * Real.sin phi * Real.cos theta,
   r * Real.sin phi * Real.sin theta + cfg.treeHeight / 2,
   r * Real.cos phi)

/-- Radius of the cone at a given height fraction: `(1 - percent) * treeRadius`
(App.tsx line 44). -/
def radiusAt (cfg : Config) (percent : ℝ) : ℝ := (1 - percent) * cfg.treeRadius

/-- Tree (structured) position of body particle `i` of `count`
(App.tsx lines 42-48): spiral with angular step 2.4, height `percent * H`
recentred by `- H / 2`. -/
noncomputable def treePosition (cfg : Config) (count i : ℕ) : Vec3 :=
  let percent : ℝ := (i : ℝ) / (count : ℝ)
  let y := percent * cfg.treeHeight
  let angle := (i : ℝ) * 2.4
  (Real.cos angle * radiusAt cfg percent,
   y - cfg.treeHeight / 2,
   Real.sin angle * radiusAt cfg percent)

/-- Palette index of a body particle (App.tsx lines 51-52):
`colorSet = u₁ > 0.6 ? 2 : 0`, then `colorSet + ⌊u₂ * 2⌋`. -/
noncomputable def colorIndex (u1 u2 : ℝ) : ℤ :=
  (if u1 > 0.6 then 2 else 0) + ⌊u2 * 2⌋

/-- Color of body particle `i`: the palette entry at `colorIndex`. -/
noncomputable def particleColor (cfg : Config) (rand : Rand) (i : ℕ) : ℕ :=
  cfg.colors.getD (colorIndex (rand.uColorSet i) (rand.uColorPick i)).toNat 0

/-- Base scale of body particle `i` (App.tsx line 54): `u * 0.6 + 0.15`. -/
def particleScale (rand : Rand) (i : ℕ) : ℝ := rand.uScale i * 0.6 + 0.15

/-- Scatter position of the star particle (App.tsx lines 61-63). -/
def starScatterPosition (cfg : Config) (rand : Rand) : Vec3 :=
  ((rand.starX - 0.5) * 5, cfg.treeHeight + 5, (rand.starZ - 0.5) * 5)

/-- Tree position of the star particle (App.tsx lines 65-67): the exact apex
`(0, H / 2 + 0.8, 0)`. -/
def starTreePosition (cfg : Config) : Vec3 := (0, cfg.treeHeight / 2 + 0.8, 0)

/-- The immutable per-particle attribute buffers produced by `generateData`. -/
structure Data where
  scatterPositions : List Vec3
  treePositions : List Vec3
  colors : List ℕ
  scales : List ℝ
  totalCount : ℕ

/-- `generateData` (App.tsx lines 21-74): `count` body particles followed by
one unconditional star particle; `totalCount = count + 1`. The star's color is
palette entry 2 and its scale is the literal 2.5. -/
noncomputable def generateData (cfg : Config) (rand : Rand) (count : ℕ) : Data :=
  { scatterPositions :=
      (List.range count).map (scatterPosition cfg rand) ++ [starScatterPosition cfg rand]
    treePositions :=
      (List.range count).map (treePosition cfg count) ++ [starTreePosition cfg]
    colors := (List.range count).map (particleColor cfg rand) ++ [cfg.colors.getD 2 0]
    scales := (List.range count).map (particleScale rand) ++ [2.5]
    totalCount := count + 1 }

/-- Numeric value of the relaxation target: 1 for TREE_SHAPE, else 0
(App.tsx line 85). -/
def targetOf (mode : Mode) : ℝ := if mode = Mode.TREE_SHAPE then 1 else 0

/-- The progress update of the `useFrame` callback (App.tsx line 85):
`lerp(progress, target, delta * animSpeed)` — note: not clamped. -/
def advanceProgress (cfg : Config) (p : ℝ) (mode : Mode) (delta : ℝ) : ℝ :=
  lerp p (targetOf mode) (delta * cfg.animSpeed)

/-- Iterated per-frame progress updates with a fixed mode and delta. -/
def progressIter (cfg : Config) (mode : Mode) (delta p0 : ℝ) : ℕ → ℝ
  | 0 => p0
  | n + 1 => advanceProgress cfg (progressIter cfg mode delta p0 n) mode delta

/-- The star test of the frame loop (App.tsx line 97): `i === totalCount - 1`. -/
def isApex (data : Data) (i : ℕ) : Bool := i == data.totalCount - 1

/-- Oscillation frequency (App.tsx line 99): star 0.5, others 1. -/
def floatFreq (star : Bool) : ℝ := if star then 0.5 else 1

/-- Oscillation amplitude (App.tsx line 99):
`(star ? 0.1 : 0.05) * (1 - t * 0.5)`. -/
def floatAmp (star : Bool) (t : ℝ) : ℝ := (if star then 0.1 else 0.05) * (1 - t * 0.5)

/-- The vertical oscillation term `floatY` of App.tsx line 99. -/
noncomputable def floatY (star : Bool) (t time : ℝ) (i : ℕ) : ℝ :=
  Real.sin (time * floatFreq star + (i : ℝ) * 0.1) * floatAmp star t

/-- The scale factor applied to the base scale (App.tsx line 104):
star 1, others `0.3 + 0.7 * t`. -/
def scaleCurve (star : Bool) (t : ℝ) : ℝ := if star then 1 else 0.3 + 0.7 * t

/-- The per-instance (position, rotation, scale) triple set on `dummy`, which
determines the matrix written by `setMatrixAt`. -/
structure Transform where
  position : Vec3
  rotation : Vec3
  scale : ℝ

/-- Per-particle transform computation of the frame loop body
(App.tsx lines 88-107) at an already-updated progress value `t`. -/
noncomputable def computeTransform (data : Data) (t time : ℝ) (i : ℕ) : Transform :=
  let sp := data.scatterPositions.getD i (0, 0, 0)
  let tp := data.treePositions.getD i (0, 0, 0)
  let star := isApex data i
  { position :=
      (lerp sp.1 tp.1 t,
       lerp sp.2.1 tp.2.1 t + floatY star t time i,
       lerp sp.2.2 tp.2.2 t)
    rotation := ((if star then 0 else (1 - t) * time), time * 0.2 + (i : ℝ) * 0.01, 0)
    scale := data.scales.getD i 0 * scaleCurve star t }

/-- One full `useFrame` call (App.tsx lines 83-110): update progress, then
recompute every particle's transform at the new progress value. -/
noncomputable def advance (cfg : Config) (data : Data) (p : ℝ) (mode : Mode)
    (delta time : ℝ) : ℝ × List Transform :=
  let t := advanceProgress cfg p mode delta
  (t, (List.range data.totalCount).map (computeTransform data t time))

/-- `CONFIG` with the count of the end-to-end scenario. -/
def CONFIG4 : Config := { CONFIG with count := 4 }

end

/-! Helper lemmas about the buffer layout `body particles ++ [star]`. -/

theorem getD_body {α : Type} (f : ℕ → α) (s d : α) {count i : ℕ} (hi : i < count) :
    ((List.range count).map f ++ [s]).getD i d = f i := by
  have hlen : i < ((List.range count).map f).length := by simpa using hi
  rw [List.getD_append _ _ _ _ hlen, List.getD_eq_getElem _ _ hlen]
  simp

theorem getD_star {α : Type} (f : ℕ → α) (s d : α) (count : ℕ) :
    ((List.range count).map f ++ [s]).getD count d = s := by
  rw [List.getD_append_right _ _ _ _ (by simp)]
  simp

/-- Convenient closed form of the progress update: a convex combination of the
previous progress and the target with weight `delta * animSpeed`. -/
theorem advanceProgress_closed_form (cfg : Config) (p : ℝ) (mode : Mode) (delta : ℝ) :
    advanceProgress cfg p mode delta =
      (1 - delta * cfg.animSpeed) * p + delta * cfg.animSpeed * targetOf mode := rfl

theorem targetOf_tree : targetOf Mode.TREE_SHAPE = 1 := by
  rw [targetOf, if_pos rfl]

theorem targetOf_scattered : targetOf Mode.SCATTERED = 0 := by
  rw [targetOf, if_neg (by decide)]

theorem targetOf_mem (mode : Mode) : 0 ≤ targetOf mode ∧ targetOf mode ≤ 1 := by
  cases mode
  · rw [targetOf_scattered]; norm_num
  · rw [targetOf_tree]; norm_num

/-- C1, counterexample: with `deltaTime = 1` (and the configured
`animSpeed = 2.0`), a single update from progress 0 toward TREE_SHAPE yields
progress 2, outside `[0, 1]` — the code's `lerp` does not clamp. -/
theorem C1_counterexample :
    progressIter CONFIG Mode.TREE_SHAPE 1 0 1 = 2 ∧
      ¬ progressIter CONFIG Mode.TREE_SHAPE 1 0 1 ≤ 1 := by
  have h : progressIter CONFIG Mode.TREE_SHAPE 1 0 1 = 2 := by
    norm_num [progressIter, advanceProgress, lerp, targetOf, CONFIG]
  exact ⟨h, by rw [h]; norm_num⟩

/-- C1 (amended): provided the per-step factor `deltaTime * animSpeed` lies in
`(0, 1]` and the initial progress lies in `[0, 1]`, iterated per-frame updates
with a fixed mode keep progress in `[0, 1]`, move it monotonically toward the
target's numeric value (up toward 1 for TREE_SHAPE, down toward 0 for
SCATTERED), and contract the distance to the target by the fixed factor
`1 - deltaTime * animSpeed` each frame. -/
theorem C1_progress_monotone_bounded (cfg : Config) (mode : Mode) (delta p0 : ℝ)
    (hs0 : 0 < delta * cfg.animSpeed) (hs1 : delta * cfg.animSpeed ≤ 1)
    (hp0 : 0 ≤ p0) (hp1 : p0 ≤ 1) (n : ℕ) :
    (0 ≤ progressIter cfg mode delta p0 n ∧ progressIter cfg mode delta p0 n ≤ 1) ∧
    (mode = Mode.TREE_SHAPE →
      progressIter cfg mode delta p0 n ≤ progressIter cfg mode delta p0 (n + 1)) ∧
    (mode = Mode.SCATTERED →
      progressIter cfg mode delta p0 (n + 1) ≤ progressIter cfg mode delta p0 n) ∧
    |targetOf mode - progressIter cfg mode delta p0 (n + 1)| =
      (1 - delta * cfg.animSpeed) * |targetOf mode - progressIter cfg mode delta p0 n| := by
  obtain ⟨ht0, ht1⟩ := targetOf_mem mode
  have hbounds : ∀ m : ℕ,
      0 ≤ progressIter cfg mode delta p0 m ∧ progressIter cfg mode delta p0 m ≤ 1 := by
    intro m
    induction m with
    | zero => exact ⟨hp0, hp1⟩
    | succ m ih =>
      obtain ⟨h0, h1⟩ := ih
      rw [progressIter, advanceProgress_closed_form]
      constructor
      · nlinarith [mul_nonneg (by linarith : (0:ℝ) ≤ 1 - delta * cfg.animSpeed) h0,
          mul_nonneg hs0.le ht0]
      · nlinarith [mul_le_mul_of_nonneg_left h1
            (by linarith : (0:ℝ) ≤ 1 - delta * cfg.animSpeed),
          mul_le_mul_of_nonneg_left ht1 hs0.le]
  obtain ⟨h0, h1⟩ := hbounds n
  refine ⟨hbounds n, ?_, ?_, ?_⟩
  · intro hm
    subst hm
    rw [progressIter, advanceProgress_closed_form, targetOf_tree]
    nlinarith [mul_nonneg hs0.le
      (by linarith : (0:ℝ) ≤ 1 - progressIter cfg Mode.TREE_SHAPE delta p0 n)]
  · intro hm
    subst hm
    rw [progressIter, advanceProgress_closed_form, targetOf_scattered]
    nlinarith [mul_nonneg hs0.le h0]
  · have hfac : targetOf mode - progressIter cfg mode delta p0 (n + 1) =
        (1 - delta * cfg.animSpeed) * (targetOf mode - progressIter cfg mode delta p0 n) := by
      rw [progressIter, advanceProgress_closed_form]; ring
    rw [hfac, abs_mul, abs_of_nonneg (by linarith : (0:ℝ) ≤ 1 - delta * cfg.animSpeed)]

/-- Witness for C1 at `cfg = CONFIG`, mode TREE_SHAPE, `deltaTime = 1/4`,
initial progress 0, frame 2. -/
theorem C1_witness :
    (0 ≤ progressIter CONFIG Mode.TREE_SHAPE (1/4) 0 2 ∧
      progressIter CONFIG Mode.TREE_SHAPE (1/4) 0 2 ≤ 1) ∧
    (Mode.TREE_SHAPE = Mode.TREE_SHAPE →
      progressIter CONFIG Mode.TREE_SHAPE (1/4) 0 2 ≤
        progressIter CONFIG Mode.TREE_SHAPE (1/4) 0 3) ∧
    (Mode.TREE_SHAPE = Mode.SCATTERED →
      progressIter CONFIG Mode.TREE_SHAPE (1/4) 0 3 ≤
        progressIter CONFIG Mode.TREE_SHAPE (1/4) 0 2) ∧
    |targetOf Mode.TREE_SHAPE - progressIter CONFIG Mode.TREE_SHAPE (1/4) 0 3| =
      (1 - 1/4 * CONFIG.animSpeed) *
        |targetOf Mode.TREE_SHAPE - progressIter CONFIG Mode.TREE_SHAPE (1/4) 0 2| :=
  C1_progress_monotone_bounded CONFIG Mode.TREE_SHAPE (1/4) 0
    (by norm_num [CONFIG]) (by norm_num [CONFIG]) le_rfl zero_le_one 2

theorem lerp_one (x y : ℝ) : lerp x y 1 = y := by
  rw [lerp]; ring

/-- C2, counterexample: in the claimed scenario (`count = 4`,
`targetMode = STRUCTURED`, `deltaTime = 1.0`, `animSpeed = 2.0`, injected
deterministic randomness, initial progress 0) a single update sets progress to
2, not to the claimed clamped value `min(1, 2.0 * 1.0) = 1`: the code performs
no clamping. -/
theorem C2_counterexample :
    (advance CONFIG4 (generateData CONFIG4 zeroRand 4) 0 Mode.TREE_SHAPE 1 0).1 = 2 ∧
      (2 : ℝ) ≠ 1 := by
  constructor
  · show advanceProgress CONFIG4 0 Mode.TREE_SHAPE 1 = 2
    norm_num [advanceProgress, lerp, targetOf, CONFIG4, CONFIG]
  · norm_num

/-- C2 (amended): with `count = 4`, `targetMode = STRUCTURED` (TREE_SHAPE),
`animSpeed = 2.0`, injected deterministic randomness and initial progress 0, a
single update with `deltaTime = 0.5` (so that `animSpeed * deltaTime = 1`;
the code does not clamp, so `deltaTime = 1.0` would overshoot to 2) sets
progress to exactly 1, and every particle's output position then equals its
structured (tree) position plus the deterministic oscillation term for the
supplied `elapsedTime`. -/
theorem C2_one_step_assembles (rand : Rand) (time : ℝ) (i : ℕ) (hi : i < 5) :
    (advance CONFIG4 (generateData CONFIG4 rand 4) 0 Mode.TREE_SHAPE 0.5 time).1 = 1 ∧
    ((advance CONFIG4 (generateData CONFIG4 rand 4) 0 Mode.TREE_SHAPE 0.5 time).2.getD i
        ⟨(0, 0, 0), (0, 0, 0), 0⟩).position =
      (((generateData CONFIG4 rand 4).treePositions.getD i (0, 0, 0)).1,
       ((generateData CONFIG4 rand 4).treePositions.getD i (0, 0, 0)).2.1 +
         floatY (isApex (generateData CONFIG4 rand 4) i) 1 time i,
       ((generateData CONFIG4 rand 4).treePositions.getD i (0, 0, 0)).2.2) := by
  have hprog : advanceProgress CONFIG4 0 Mode.TREE_SHAPE 0.5 = 1 := by
    norm_num [advanceProgress, lerp, targetOf, CONFIG4, CONFIG]
  have hdata : (generateData CONFIG4 rand 4).totalCount = 5 := by
    rw [generateData]
  constructor
  · exact hprog
  · have h2 : (advance CONFIG4 (generateData CONFIG4 rand 4) 0 Mode.TREE_SHAPE 0.5 time).2 =
        (List.range 5).map (computeTransform (generateData CONFIG4 rand 4) 1 time) := by
      simp only [advance, hprog, hdata]
    rw [h2, List.getD_eq_getElem _ _ (by simpa using hi)]
    simp only [List.getElem_map, List.getElem_range]
    simp only [computeTransform, lerp_one]

/-- Witness for C2 at all-zero injected randomness, `elapsedTime = 0`,
particle index 0. -/
theorem C2_witness :
    (advance CONFIG4 (generateData CONFIG4 zeroRand 4) 0 Mode.TREE_SHAPE 0.5 0).1 = 1 ∧
    ((advance CONFIG4 (generateData CONFIG4 zeroRand 4) 0 Mode.TREE_SHAPE 0.5 0).2.getD 0
        ⟨(0, 0, 0), (0, 0, 0), 0⟩).position =
      (((generateData CONFIG4 zeroRand 4).treePositions.getD 0 (0, 0, 0)).1,
       ((generateData CONFIG4 zeroRand 4).treePositions.getD 0 (0, 0, 0)).2.1 +
         floatY (isApex (generateData CONFIG4 zeroRand 4) 0) 1 0 0,
       ((generateData CONFIG4 zeroRand 4).treePositions.getD 0 (0, 0, 0)).2.2) :=
  C2_one_step_assembles zeroRand 0 0 (by norm_num)

/-- C3: for every non-apex particle `i < count`, the structured position is
`(cos(i * 2.4) * r, percent * H - H / 2, sin(i * 2.4) * r)` with
`percent = i / count` and `r = radiusAt cfg percent = (1 - percent) * treeRadius`;
moreover (for a nonnegative configured base radius) `radiusAt` is
non-increasing in `percent` and equals exactly 0 at `percent = 1`. -/
theorem C3_structured_layout (cfg : Config) (rand : Rand) (count : ℕ)
    (hR : 0 ≤ cfg.treeRadius) (i : ℕ) (hi : i < count) :
    (generateData cfg rand count).treePositions.getD i (0, 0, 0) =
      (Real.cos ((i : ℝ) * 2.4) * radiusAt cfg ((i : ℝ) / (count : ℝ)),
       ((i : ℝ) / (count : ℝ)) * cfg.treeHeight - cfg.treeHeight / 2,
       Real.sin ((i : ℝ) * 2.4) * radiusAt cfg ((i : ℝ) / (count : ℝ))) ∧
    (∀ p q : ℝ, p ≤ q → radiusAt cfg q ≤ radiusAt cfg p) ∧
    radiusAt cfg 1 = 0 := by
  refine ⟨?_, ?_, ?_⟩
  · show ((List.range count).map (treePosition cfg count) ++
        [starTreePosition cfg]).getD i (0, 0, 0) = _
    rw [getD_body _ _ _ hi]
    rfl
  · intro p q hpq
    simp only [radiusAt]
    exact mul_le_mul_of_nonneg_right (by linarith) hR
  · simp only [radiusAt]
    ring

/-- Witness for C3 at `cfg = CONFIG`, `count = 2`, `i = 1`. -/
theorem C3_witness :
    (generateData CONFIG zeroRand 2).treePositions.getD 1 (0, 0, 0) =
      (Real.cos (((1 : ℕ) : ℝ) * 2.4) * radiusAt CONFIG (((1 : ℕ) : ℝ) / ((2 : ℕ) : ℝ)),
       (((1 : ℕ) : ℝ) / ((2 : ℕ) : ℝ)) * CONFIG.treeHeight - CONFIG.treeHeight / 2,
       Real.sin (((1 : ℕ) : ℝ) * 2.4) * radiusAt CONFIG (((1 : ℕ) : ℝ) / ((2 : ℕ) : ℝ))) ∧
    (∀ p q : ℝ, p ≤ q → radiusAt CONFIG q ≤ radiusAt CONFIG p) ∧
    radiusAt CONFIG 1 = 0 :=
  C3_structured_layout CONFIG zeroRand 2 (by norm_num [CONFIG]) 1 (by norm_num)

/-- C4: the generator always appends exactly one apex (star) particle; it is
the particle of highest index `count` (with `totalCount = count + 1`); its
structured position is exactly `(0, H / 2 + 0.8, 0)`; and for every progress
value and elapsed time its rotation is `(0, time * 0.2 + i * 0.01, 0)` — only
the constant slow spin, never the tumbling term `(1 - t) * time` that every
non-apex particle receives on the first axis. -/
theorem C4_apex (cfg : Config) (rand : Rand) (count : ℕ) (t time : ℝ) :
    (∃! i : ℕ, i < (generateData cfg rand count).totalCount ∧
        isApex (generateData cfg rand count) i = true) ∧
    isApex (generateData cfg rand count) count = true ∧
    (generateData cfg rand count).totalCount = count + 1 ∧
    (generateData cfg rand count).treePositions.getD count (0, 0, 0) =
      (0, cfg.treeHeight / 2 + 0.8, 0) ∧
    (computeTransform (generateData cfg rand count) t time count).rotation =
      (0, time * 0.2 + (count : ℝ) * 0.01, 0) ∧
    (∀ i : ℕ, i < count →
      (computeTransform (generateData cfg rand count) t time i).rotation =
        ((1 - t) * time, time * 0.2 + (i : ℝ) * 0.01, 0)) := by
  have htot : (generateData cfg rand count).totalCount = count + 1 := rfl
  have hstar : isApex (generateData cfg rand count) count = true := by
    simp [isApex, htot]
  refine ⟨⟨count, ⟨by rw [htot]; exact Nat.lt_succ_self count, hstar⟩, ?_⟩,
    hstar, htot, ?_, ?_, ?_⟩
  · intro j hj
    have := hj.2
    simpa [isApex, htot] using this
  · show ((List.range count).map (treePosition cfg count) ++
        [starTreePosition cfg]).getD count (0, 0, 0) = _
    rw [getD_star]
    rfl
  · simp [computeTransform, hstar]
  · intro i hi
    have hne : isApex (generateData cfg rand count) i = false := by
      simp [isApex, htot]
      omega
    simp [computeTransform, hne]

/-- Witness for C4 at `cfg = CONFIG`, `count = 3`, `t = 1/2`, `time = 2`. -/
theorem C4_witness :
    (∃! i : ℕ, i < (generateData CONFIG zeroRand 3).totalCount ∧
        isApex (generateData CONFIG zeroRand 3) i = true) ∧
    isApex (generateData CONFIG zeroRand 3) 3 = true ∧
    (generateData CONFIG zeroRand 3).totalCount = 3 + 1 ∧
    (generateData CONFIG zeroRand 3).treePositions.getD 3 (0, 0, 0) =
      (0, CONFIG.treeHeight / 2 + 0.8, 0) ∧
    (computeTransform (generateData CONFIG zeroRand 3) (1/2) 2 3).rotation =
      (0, 2 * 0.2 + ((3 : ℕ) : ℝ) * 0.01, 0) ∧
    (∀ i : ℕ, i < 3 →
      (computeTransform (generateData CONFIG zeroRand 3) (1/2) 2 i).rotation =
        ((1 - 1/2) * 2, 2 * 0.2 + (i : ℝ) * 0.01, 0)) :=
  C4_apex CONFIG zeroRand 3 (1/2) 2

/-- C5, counterexample: the scattered cloud is centered at height
`treeHeight / 2` (the position sampled with a zero radius draw has
`y = treeHeight / 2 = 4.5`), while the structured layout's vertical midpoint —
computed for `count = 4` from its lowest particle (`y = -4.5`) and its apex
(`y = 5.3`) — is `0.4`; the two differ by more than a quarter of the tree
height, so the cloud is not centered near the structured layout's vertical
midpoint. -/
theorem C5_counterexample :
    (scatterPosition CONFIG zeroRand 0).2.1 = CONFIG.treeHeight / 2 ∧
    (((generateData CONFIG zeroRand 4).treePositions.getD 0 (0, 0, 0)).2.1 +
       ((generateData CONFIG zeroRand 4).treePositions.getD 4 (0, 0, 0)).2.1) / 2 = 0.4 ∧
    CONFIG.treeHeight / 2 - 0.4 > CONFIG.treeHeight / 4 := by
  have hc : cbrt (0 : ℝ) = 0 := by
    rw [cbrt]
    exact Real.zero_rpow (by norm_num)
  refine ⟨?_, ?_, ?_⟩
  · simp [scatterPosition, zeroRand, hc, CONFIG]
  · have h0 : ((generateData CONFIG zeroRand 4).treePositions.getD 0 (0, 0, 0)).2.1 =
        -(9/2 : ℝ) := by
      show (((List.range 4).map (treePosition CONFIG 4) ++
          [starTreePosition CONFIG]).getD 0 (0, 0, 0)).2.1 = _
      rw [getD_body _ _ _ (by norm_num)]
      norm_num [treePosition, CONFIG]
    have h4 : ((generateData CONFIG zeroRand 4).treePositions.getD 4 (0, 0, 0)).2.1 =
        (5.3 : ℝ) := by
      show (((List.range 4).map (treePosition CONFIG 4) ++
          [starTreePosition CONFIG]).getD 4 (0, 0, 0)).2.1 = _
      rw [getD_star]
      norm_num [starTreePosition, CONFIG]
    rw [h0, h4]
    norm_num
  · norm_num [CONFIG]

/-- C5 (amended): every scattered position is obtained by sampling radius
`scatterRadius * cbrt u`, direction `theta = u * 2π` (lying in `[0, 2π)` for a
uniform draw in `[0, 1)`) and `phi = acos (2u - 1)`, converting spherical to
Cartesian, and adding the fixed vertical offset `treeHeight / 2` to the y
component — an offset that centers the cloud at the height of the structured
layout's top, strictly above every non-apex structured particle, not near the
structured layout's vertical midpoint. -/
theorem C5_scattered_sampling (cfg : Config) (rand : Rand) (count i : ℕ)
    (hi : i < count) (hH : 0 < cfg.treeHeight)
    (hu : 0 ≤ rand.uTheta i) (hu1 : rand.uTheta i < 1) :
    (generateData cfg rand count).scatterPositions.getD i (0, 0, 0) =
      ((sphericalToCartesian (cfg.scatterRadius * cbrt (rand.uR i))
          (rand.uTheta i * 2 * Real.pi) (Real.arccos (2 * rand.uPhi i - 1))).1,
       (sphericalToCartesian (cfg.scatterRadius * cbrt (rand.uR i))
          (rand.uTheta i * 2 * Real.pi) (Real.arccos (2 * rand.uPhi i - 1))).2.1 +
         cfg.treeHeight / 2,
       (sphericalToCartesian (cfg.scatterRadius * cbrt (rand.uR i))
          (rand.uTheta i * 2 * Real.pi) (Real.arccos (2 * rand.uPhi i - 1))).2.2) ∧
    (0 ≤ rand.uTheta i * 2 * Real.pi ∧
      rand.uTheta i * 2 * Real.pi < 2 * Real.pi) ∧
    (∀ j : ℕ, j < count →
      ((generateData cfg rand count).treePositions.getD j (0, 0, 0)).2.1 <
        cfg.treeHeight / 2) := by
  refine ⟨?_, ⟨?_, ?_⟩, ?_⟩
  · show ((List.range count).map (scatterPosition cfg rand) ++
        [starScatterPosition cfg rand]).getD i (0, 0, 0) = _
    rw [getD_body _ _ _ hi]
    rfl
  · have := Real.pi_pos
    nlinarith
  · nlinarith [mul_pos (by linarith : (0:ℝ) < 1 - rand.uTheta i) Real.pi_pos]
  · intro j hj
    show (((List.range count).map (treePosition cfg count) ++
        [starTreePosition cfg]).getD j (0, 0, 0)).2.1 < _
    rw [getD_body _ _ _ hj]
    show (j : ℝ) / (count : ℝ) * cfg.treeHeight - cfg.treeHeight / 2 <
      cfg.treeHeight / 2
    have hcount : (0 : ℝ) < (count : ℝ) := by
      have : 0 < count := Nat.pos_of_ne_zero (by omega)
      exact_mod_cast this
    have hfrac : (j : ℝ) / (count : ℝ) < 1 := by
      rw [div_lt_one hcount]
      exact_mod_cast hj
    nlinarith

/-- Witness for C5 at `cfg = CONFIG`, `count = 2`, `i = 1`, all-zero draws. -/
theorem C5_witness :
    (generateData CONFIG zeroRand 2).scatterPositions.getD 1 (0, 0, 0) =
      ((sphericalToCartesian (CONFIG.scatterRadius * cbrt (zeroRand.uR 1))
          (zeroRand.uTheta 1 * 2 * Real.pi) (Real.arccos (2 * zeroRand.uPhi 1 - 1))).1,
       (sphericalToCartesian (CONFIG.scatterRadius * cbrt (zeroRand.uR 1))
          (zeroRand.uTheta 1 * 2 * Real.pi) (Real.arccos (2 * zeroRand.uPhi 1 - 1))).2.1 +
         CONFIG.treeHeight / 2,
       (sphericalToCartesian (CONFIG.scatterRadius * cbrt (zeroRand.uR 1))
          (zeroRand.uTheta 1 * 2 * Real.pi) (Real.arccos (2 * zeroRand.uPhi 1 - 1))).2.2) ∧
    (0 ≤ zeroRand.uTheta 1 * 2 * Real.pi ∧
      zeroRand.uTheta 1 * 2 * Real.pi < 2 * Real.pi) ∧
    (∀ j : ℕ, j < 2 →
      ((generateData CONFIG zeroRand 2).treePositions.getD j (0, 0, 0)).2.1 <
        CONFIG.treeHeight / 2) :=
  C5_scattered_sampling CONFIG zeroRand 2 1 (by norm_num) (by norm_num [CONFIG])
    (le_refl 0) (by norm_num [zeroRand])

/-- C6, counterexample: the apex oscillation amplitude `floatAmp true t =
0.1 * (1 - t * 0.5)` is not fixed — it differs between progress 0 and
progress 1 — and its base factor 0.1 is larger, not smaller, than the
non-apex base factor 0.05. -/
theorem C6_counterexample :
    floatAmp true 0 ≠ floatAmp true 1 ∧ floatAmp false 0 < floatAmp true 0 := by
  constructor <;> norm_num [floatAmp]

/-- C6 (amended): each particle's vertical oscillation is
`sin(time * freq + i * 0.1) * amplitude` where the apex frequency 0.5 is
slower than the non-apex frequency 1; the amplitude is strictly decreasing in
progress for every particle — the apex included, whose amplitude is scaled by
the same `(1 - t * 0.5)` factor — and the apex base amplitude 0.1 is twice the
non-apex base amplitude 0.05, larger rather than smaller. -/
theorem C6_oscillation (data : Data) (t time : ℝ) (i : ℕ) :
    (computeTransform data t time i).position.2.1 =
      lerp (data.scatterPositions.getD i (0, 0, 0)).2.1
        (data.treePositions.getD i (0, 0, 0)).2.1 t +
        Real.sin (time * floatFreq (isApex data i) + (i : ℝ) * 0.1) *
          floatAmp (isApex data i) t ∧
    floatFreq true < floatFreq false ∧
    (∀ s : Bool, ∀ t1 t2 : ℝ, t1 < t2 → floatAmp s t2 < floatAmp s t1) ∧
    (∀ u : ℝ, floatAmp true u = 2 * floatAmp false u) := by
  have hpos : ∀ s : Bool, (0 : ℝ) < (if s then 0.1 else 0.05) := by
    intro s
    cases s <;> norm_num
  refine ⟨rfl, by norm_num [floatFreq], ?_, ?_⟩
  · intro s t1 t2 h
    have := mul_lt_mul_of_pos_left
      (show 1 - t2 * 0.5 < 1 - t1 * 0.5 by linarith) (hpos s)
    simpa [floatAmp] using this
  · intro u
    norm_num [floatAmp]
    ring

/-- Witness for C6 on the generated data at `count = 2`, `t = 1/2`,
`time = 3`, `i = 0`. -/
theorem C6_witness :
    (computeTransform (generateData CONFIG zeroRand 2) (1/2) 3 0).position.2.1 =
      lerp ((generateData CONFIG zeroRand 2).scatterPositions.getD 0 (0, 0, 0)).2.1
        ((generateData CONFIG zeroRand 2).treePositions.getD 0 (0, 0, 0)).2.1 (1/2) +
        Real.sin (3 * floatFreq (isApex (generateData CONFIG zeroRand 2) 0) +
            ((0 : ℕ) : ℝ) * 0.1) *
          floatAmp (isApex (generateData CONFIG zeroRand 2) 0) (1/2) ∧
    floatFreq true < floatFreq false ∧
    (∀ s : Bool, ∀ t1 t2 : ℝ, t1 < t2 → floatAmp s t2 < floatAmp s t1) ∧
    (∀ u : ℝ, floatAmp true u = 2 * floatAmp false u) :=
  C6_oscillation (generateData CONFIG zeroRand 2) (1/2) 3 0

/-- C7, counterexample: `count = 0` does not yield empty buffers — the
generator unconditionally appends the star particle, so `totalCount = 1` and
every buffer holds one entry. -/
theorem C7_counterexample :
    (generateData CONFIG zeroRand 0).totalCount = 1 ∧
      (generateData CONFIG zeroRand 0).scatterPositions.length ≠ 0 := by
  constructor <;> simp [generateData]

/-- C7 (amended): the degenerate configuration `count = 0` does not fail:
generation totally succeeds and yields buffers containing exactly one particle
— the unconditional apex star — in every index-aligned attribute buffer
(`totalCount = 1`), and a frame update produces exactly one transform. -/
theorem C7_count_zero (cfg : Config) (rand : Rand) (p delta time : ℝ) (mode : Mode) :
    (generateData cfg rand 0).totalCount = 1 ∧
    (generateData cfg rand 0).scatterPositions = [starScatterPosition cfg rand] ∧
    (generateData cfg rand 0).treePositions = [starTreePosition cfg] ∧
    (generateData cfg rand 0).colors = [cfg.colors.getD 2 0] ∧
    (generateData cfg rand 0).scales = [(2.5 : ℝ)] ∧
    (advance cfg (generateData cfg rand 0) p mode delta time).2.length = 1 := by
  refine ⟨rfl, ?_, ?_, ?_, ?_, ?_⟩ <;> simp [generateData, advance]

/-- C8: every emitted scale is `baseScale * scaleCurve`, where for non-apex
particles `scaleCurve t = 0.3 + 0.7 * t` — equal to 0.3 (within the claimed
0.3-0.5 band) at progress 0, exactly 1 at progress 1, and monotonically
rising — while the apex particle's emitted scale is held at its base scale for
every progress value. -/
theorem C8_scale (data : Data) (t time : ℝ) (i : ℕ) :
    (computeTransform data t time i).scale =
      data.scales.getD i 0 * scaleCurve (isApex data i) t ∧
    (isApex data i = false → scaleCurve (isApex data i) t = 0.3 + 0.7 * t) ∧
    ((0.3 : ℝ) ≤ scaleCurve false 0 ∧ scaleCurve false 0 ≤ 0.5) ∧
    scaleCurve false 0 = 0.3 ∧ scaleCurve false 1 = 1 ∧
    (∀ t1 t2 : ℝ, t1 ≤ t2 → scaleCurve false t1 ≤ scaleCurve false t2) ∧
    (isApex data i = true →
      (computeTransform data t time i).scale = data.scales.getD i 0) := by
  refine ⟨rfl, ?_, ?_, ?_, ?_, ?_, ?_⟩
  · intro h
    rw [h]
    simp [scaleCurve]
  · norm_num [scaleCurve]
  · norm_num [scaleCurve]
  · norm_num [scaleCurve]
  · intro t1 t2 h
    simp only [scaleCurve, if_neg Bool.false_ne_true]
    linarith
  · intro h
    show data.scales.getD i 0 * scaleCurve (isApex data i) t = _
    rw [h]
    simp [scaleCurve]

/-- Witness for C8 on the generated data at `count = 1`, `t = 0`, `time = 0`,
`i = 0`. -/
theorem C8_witness :
    (computeTransform (generateData CONFIG zeroRand 1) 0 0 0).scale =
      (generateData CONFIG zeroRand 1).scales.getD 0 0 *
        scaleCurve (isApex (generateData CONFIG zeroRand 1) 0) 0 ∧
    (isApex (generateData CONFIG zeroRand 1) 0 = false →
      scaleCurve (isApex (generateData CONFIG zeroRand 1) 0) 0 = 0.3 + 0.7 * 0) ∧
    ((0.3 : ℝ) ≤ scaleCurve false 0 ∧ scaleCurve false 0 ≤ 0.5) ∧
    scaleCurve false 0 = 0.3 ∧ scaleCurve false 1 = 1 ∧
    (∀ t1 t2 : ℝ, t1 ≤ t2 → scaleCurve false t1 ≤ scaleCurve false t2) ∧
    (isApex (generateData CONFIG zeroRand 1) 0 = true →
      (computeTransform (generateData CONFIG zeroRand 1) 0 0 0).scale =
        (generateData CONFIG zeroRand 1).scales.getD 0 0) :=
  C8_scale (generateData CONFIG zeroRand 1) 0 0 0

/-- C9: for uniform draws in `[0, 1)`, the palette index lies in `[0, 4)` so
every body particle's color is an entry of the configured palette; the accent
(gold) branch `colorIndex ≥ 2` is taken exactly on the sub-interval
`(0.6, 1)` of the draw's range, whose measure `0.4` lies within the claimed
30-40% band; and the color depends only on the two color draws, not on the
scale draw. -/
theorem C9_palette_bias (rand : Rand) (i : ℕ)
    (h1 : 0 ≤ rand.uColorSet i) (h2 : rand.uColorSet i < 1)
    (h3 : 0 ≤ rand.uColorPick i) (h4 : rand.uColorPick i < 1) :
    (0 ≤ colorIndex (rand.uColorSet i) (rand.uColorPick i) ∧
      colorIndex (rand.uColorSet i) (rand.uColorPick i) < 4) ∧
    particleColor CONFIG rand i ∈ CONFIG.colors ∧
    (2 ≤ colorIndex (rand.uColorSet i) (rand.uColorPick i) ↔
      rand.uColorSet i ∈ Set.Ioo (0.6 : ℝ) 1) ∧
    {u : ℝ | u ∈ Set.Ico (0 : ℝ) 1 ∧ (0.6 : ℝ) < u} = Set.Ioo 0.6 1 ∧
    MeasureTheory.volume (Set.Ioo (0.6 : ℝ) 1) = ENNReal.ofReal 0.4 ∧
    ((0.3 : ℝ) ≤ 0.4 ∧ (0.4 : ℝ) ≤ 0.4) ∧
    (∀ r2 : Rand, r2.uColorSet i = rand.uColorSet i →
      r2.uColorPick i = rand.uColorPick i →
      particleColor CONFIG r2 i = particleColor CONFIG rand i) := by
  have hf0 : 0 ≤ ⌊rand.uColorPick i * 2⌋ := Int.floor_nonneg.mpr (by linarith)
  have hf1 : ⌊rand.uColorPick i * 2⌋ < 2 := Int.floor_lt.mpr (by push_cast; linarith)
  have hbounds : 0 ≤ colorIndex (rand.uColorSet i) (rand.uColorPick i) ∧
      colorIndex (rand.uColorSet i) (rand.uColorPick i) < 4 := by
    rw [colorIndex]
    split <;> omega
  refine ⟨hbounds, ?_, ?_, ?_, ?_, by norm_num, ?_⟩
  · rw [particleColor]
    have hlt : (colorIndex (rand.uColorSet i) (rand.uColorPick i)).toNat <
        CONFIG.colors.length := by
      show _ < 4
      omega
    rw [List.getD_eq_getElem _ _ hlt]
    exact List.getElem_mem _
  · rw [colorIndex]
    by_cases hgt : rand.uColorSet i > 0.6
    · rw [if_pos hgt]
      simp only [Set.mem_Ioo]
      exact ⟨fun _ => ⟨hgt, h2⟩, fun _ => by omega⟩
    · rw [if_neg hgt]
      simp only [Set.mem_Ioo]
      constructor
      · intro h
        omega
      · intro h
        exact absurd h.1 hgt
  · ext u
    simp only [Set.mem_setOf_eq, Set.mem_Ico, Set.mem_Ioo]
    constructor
    · rintro ⟨⟨_, hu1⟩, hu6⟩
      exact ⟨hu6, hu1⟩
    · rintro ⟨hu6, hu1⟩
      exact ⟨⟨by linarith, hu1⟩, hu6⟩
  · rw [Real.volume_Ioo]
    norm_num
  · intro r2 ha hb
    rw [particleColor, particleColor, ha, hb]

/-- Witness for C9 at all-zero color draws. -/
theorem C9_witness :
    (0 ≤ colorIndex (zeroRand.uColorSet 0) (zeroRand.uColorPick 0) ∧
      colorIndex (zeroRand.uColorSet 0) (zeroRand.uColorPick 0) < 4) ∧
    particleColor CONFIG zeroRand 0 ∈ CONFIG.colors ∧
    (2 ≤ colorIndex (zeroRand.uColorSet 0) (zeroRand.uColorPick 0) ↔
      zeroRand.uColorSet 0 ∈ Set.Ioo (0.6 : ℝ) 1) ∧
    {u : ℝ | u ∈ Set.Ico (0 : ℝ) 1 ∧ (0.6 : ℝ) < u} = Set.Ioo 0.6 1 ∧
    MeasureTheory.volume (Set.Ioo (0.6 : ℝ) 1) = ENNReal.ofReal 0.4 ∧
    ((0.3 : ℝ) ≤ 0.4 ∧ (0.4 : ℝ) ≤ 0.4) ∧
    (∀ r2 : Rand, r2.uColorSet 0 = zeroRand.uColorSet 0 →
      r2.uColorPick 0 = zeroRand.uColorPick 0 →
      particleColor CONFIG r2 0 = particleColor CONFIG zeroRand 0) :=
  C9_palette_bias zeroRand 0 (le_refl 0) (by norm_num [zeroRand])
    (le_refl 0) (by norm_num [zeroRand])

/-- C10: the per-frame update is deterministic — two invocations with equal
progress, equal attribute buffers, the same target mode, the same `deltaTime`
and the same `elapsedTime` produce the same updated progress and the same
transform (hence the same instance matrix) at every particle index. The frame
callback consumes no random source, so this holds by pure functionality of the
embedded `advance`. -/
theorem C10_deterministic (cfg : Config) (d1 d2 : Data) (p1 p2 : ℝ) (m1 m2 : Mode)
    (delta1 delta2 time1 time2 : ℝ)
    (hd : d1 = d2) (hp : p1 = p2) (hm : m1 = m2) (hdelta : delta1 = delta2)
    (htime : time1 = time2) :
    (advance cfg d1 p1 m1 delta1 time1).1 = (advance cfg d2 p2 m2 delta2 time2).1 ∧
    (∀ i : ℕ,
      (advance cfg d1 p1 m1 delta1 time1).2.getD i ⟨(0, 0, 0), (0, 0, 0), 0⟩ =
        (advance cfg d2 p2 m2 delta2 time2).2.getD i ⟨(0, 0, 0), (0, 0, 0), 0⟩) := by
  subst hd
  subst hp
  subst hm
  subst hdelta
  subst htime
  exact ⟨rfl, fun _ => rfl⟩

/-- Witness for C10 at concrete equal inputs. -/
theorem C10_witness :
    (advance CONFIG (generateData CONFIG zeroRand 1) 0 Mode.SCATTERED 1 0).1 =
      (advance CONFIG (generateData CONFIG zeroRand 1) 0 Mode.SCATTERED 1 0).1 ∧
    (∀ i : ℕ,
      (advance CONFIG (generateData CONFIG zeroRand 1) 0 Mode.SCATTERED 1 0).2.getD i
          ⟨(0, 0, 0), (0, 0, 0), 0⟩ =
        (advance CONFIG (generateData CONFIG zeroRand 1) 0 Mode.SCATTERED 1 0).2.getD i
          ⟨(0, 0, 0), (0, 0, 0), 0⟩) :=
  C10_deterministic CONFIG (generateData CONFIG zeroRand 1)
    (generateData CONFIG zeroRand 1) 0 0 Mode.SCATTERED Mode.SCATTERED 1 1 0 0
    rfl rfl rfl rfl rfl

end Arix
